import Mathlib

/-!
Verification development for the surplus-equipment scraper
(`scraper.py` + `main.py`).

The Python source is shallowly embedded: strings are Lean `String`
(lists of characters), parsed HTML documents are records of the features
the scraper reads (selector results, anchor attributes, table cells),
the paginated site is a function from record offset to fetch result, and
the FastAPI job registry is a pair of maps from job id to job state.
The concrete regular expressions of the source are embedded as
executable character-list scanners with the semantics `re` gives them on
the newline-free texts the scraper handles (`.` and `$` treat the whole
string as one line; none of the inputs considered here contain a
newline).
-/

/-! ## String helpers (Python `str` operations used by the scraper) -/

/-- ASCII whitespace recognized by Python `str.strip` / `str.split` /
regex `\s` on the texts involved. -/
def isWs (c : Char) : Bool :=
  c == ' ' || c == '\t' || c == '\n' || c == '\r' ||
  c == Char.ofNat 11 || c == Char.ofNat 12

/-- Python `str.strip()` on a character list. -/
def trimList (s : List Char) : List Char :=
  ((s.dropWhile isWs).reverse.dropWhile isWs).reverse

/-- Python `str.strip()`. -/
def pyStrip (s : String) : String := ⟨trimList s.toList⟩

/-- Python `str.lower()` (ASCII case folding suffices for the texts involved). -/
def pyLower (s : String) : String := ⟨s.toList.map Char.toLower⟩

/-- Worker for `wsTokens`: accumulates the current token (reversed) and
the finished tokens (reversed). -/
def wsTokensGo : List Char → List Char → List (List Char) → List (List Char)
  | [], cur, acc => (if cur = [] then acc else cur.reverse :: acc).reverse
  | c :: cs, cur, acc =>
      if isWs c then wsTokensGo cs [] (if cur = [] then acc else cur.reverse :: acc)
      else wsTokensGo cs (c :: cur) acc

/-- Python `str.split()` with no argument: maximal non-whitespace runs. -/
def wsTokens (s : List Char) : List (List Char) := wsTokensGo s [] []

/-- Python `' '.join(s.split())`, which is also what
`re.sub(r'\s+', ' ', s).strip()` computes: collapse whitespace runs to
single spaces and trim. -/
def normSpace (s : String) : String := ⟨List.intercalate [' '] (wsTokens s.toList)⟩

/-- Does `s` start with the pattern? (case-sensitive). -/
def listStartsWith : List Char → List Char → Bool
  | [], _ => true
  | _ :: _, [] => false
  | p :: ps, c :: cs => p == c && listStartsWith ps cs

/-- Does the needle occur as a contiguous substring of the haystack? -/
def containsSubList (needle : List Char) : List Char → Bool
  | [] => listStartsWith needle []
  | c :: cs => listStartsWith needle (c :: cs) || containsSubList needle cs

/-- Python `pat in s.lower()` for an already-lower-case `pat`. -/
def strContainsCI (pat s : String) : Bool :=
  containsSubList pat.toList (s.toList.map Char.toLower)

/-! ## The regex fragments of `scraper.py`, as character scanners -/

/-- Match the lower-case pattern `pat` case-insensitively at the start of
`s`, returning the remainder on success. -/
def dropCI (pat : List Char) (s : List Char) : Option (List Char) :=
  match pat, s with
  | [], rest => some rest
  | _ :: _, [] => none
  | p :: ps, c :: cs => if c.toLower == p then dropCI ps cs else none

/-- Regex `\s+` at the start of `s`: at least one whitespace character,
consumed greedily; returns the remainder. -/
def dropWs1 (s : List Char) : Option (List Char) :=
  match s with
  | [] => none
  | c :: cs => if isWs c then some (cs.dropWhile isWs) else none

/-- Regex alternation `(Offered|Wanted)` with `re.IGNORECASE` at the
start of `s`; returns the remainder on a match. -/
def afterOfferedWanted (s : List Char) : Option (List Char) :=
  match dropCI "offered".toList s with
  | some r => some r
  | none => dropCI "wanted".toList s

/-- Regex `\s+at` (case-insensitive) at the start of `s`. Whitespace and
the letter `a` are disjoint, so the greedy `\s+` is deterministic. -/
def wsThenAt (s : List Char) : Bool :=
  match dropWs1 s with
  | some r => (dropCI "at".toList r).isSome
  | none => false

/-- `re.sub(r'^(Offered|Wanted)\s+at.*$', '', v, flags=re.IGNORECASE)`
(scraper.py line 65): anchored at the start; on a match the greedy `.*$`
swallows the rest of the (newline-free) string, so the result is empty. -/
def subOfferedAt (s : List Char) : List Char :=
  match afterOfferedWanted s with
  | some r => if wsThenAt r then [] else s
  | none => s

/-- Does `Serial\s+Number` (case-insensitive) match at the start of `s`? -/
def serialHere (s : List Char) : Bool :=
  match dropCI "serial".toList s with
  | some r =>
      match dropWs1 r with
      | some r2 => (dropCI "number".toList r2).isSome
      | none => false
  | none => false

/-- `re.sub(r'Serial\s+Number.*$', '', v, flags=re.IGNORECASE)`
(scraper.py line 66): everything from the leftmost match to the end of
the string is removed. -/
def truncAtSerial : List Char → List Char
  | [] => []
  | c :: cs => if serialHere (c :: cs) then [] else c :: truncAtSerial cs

/-- `re.sub(pat ++ '.*$', '', v, flags=re.IGNORECASE)` for a literal
word `pat` (scraper.py lines 67-69): truncate at the leftmost
case-insensitive occurrence of the word. -/
def truncAtCI (pat : List Char) : List Char → List Char
  | [] => []
  | c :: cs => if (dropCI pat (c :: cs)).isSome then [] else c :: truncAtCI pat cs

/-- Regex `\d{5,}` at the start of `s`: five consecutive digits suffice
to witness a match here. -/
def fiveDigitsHere (s : List Char) : Bool :=
  (s.take 5).length == 5 && (s.take 5).all Char.isDigit

/-- `re.sub(r'\d{5,}.*$', '', v)` (scraper.py line 70): truncate at the
leftmost run of five or more digits. -/
def truncAtDigits : List Char → List Char
  | [] => []
  | c :: cs => if fiveDigitsHere (c :: cs) then [] else c :: truncAtDigits cs

/-- The value-cleanup chain of `extract_table_value`
(scraper.py lines 65-72), applied in the fixed source order, finishing
with `' '.join(value.split())` and `.strip()`. -/
def cleanValue (v : String) : String :=
  let v1 := subOfferedAt v.toList
  let v2 := truncAtSerial v1
  let v3 := truncAtCI "model".toList v2
  let v4 := truncAtCI "manufacture".toList v3
  let v5 := truncAtCI "manufacturer".toList v4
  let v6 := truncAtDigits v5
  pyStrip ⟨List.intercalate [' '] (wsTokens v6)⟩

/-! ## URLs -/

/-- `SurplusScraper.BASE_URL` (scraper.py line 19). -/
def BASE_URL : String := "https://surplus.infineon.com/"

/-- Continues `hasScheme`: scheme characters then a colon. -/
def schemeRest : List Char → Bool
  | [] => false
  | c :: cs =>
      if c == ':' then true
      else if c.isAlphanum || c == '+' || c == '-' || c == '.' then schemeRest cs
      else false

/-- Does the URL begin with a scheme (`letter (letter|digit|+|-|.)* :`)? -/
def hasScheme (s : List Char) : Bool :=
  match s with
  | [] => false
  | c :: cs => c.isAlpha && schemeRest cs

/-- `urllib.parse.urljoin(BASE_URL, rel)` for the URL shapes this site
serves: absolute URLs, protocol-relative and root-relative paths, and
plain relative paths (the base path is the root `/`, and the site's
links contain no dot segments). -/
def urljoinBase (rel : String) : String :=
  if hasScheme rel.toList then rel
  else if listStartsWith "//".toList rel.toList then "https:" ++ rel
  else if listStartsWith "/".toList rel.toList then "https://surplus.infineon.com" ++ rel
  else BASE_URL ++ rel

/-- Python `s.split('?')[0]`: the prefix before the first `?`. -/
def stripQuery (s : String) : String := ⟨s.toList.takeWhile (fun c => c != '?')⟩

/-- `re.search(r'\.(jpg|jpeg|png|gif|bmp|webp)', s, re.IGNORECASE)`
(scraper.py line 171) as a Boolean: the alternation turns into a
disjunction of case-insensitive substring tests. -/
def hasImageExt (s : String) : Bool :=
  strContainsCI ".jpg" s || strContainsCI ".jpeg" s || strContainsCI ".png" s ||
  strContainsCI ".gif" s || strContainsCI ".bmp" s || strContainsCI ".webp" s

/-! ## The parsed detail-page document

A `Doc` records exactly the features of the BeautifulSoup tree that
`scrape_listing` reads. Every `String` stored in it stands for the
`get_text(strip=True)` of the corresponding element, and attribute
strings stand for `tag.get(attr)` with `""` for a missing attribute
(the source only ever tests them for truthiness, where `None` and `""`
coincide). -/

/-- One `td`/`th` cell of a table row: the text of its first descendant
of class `txtb` (if any), of class `txt` (if any), and its own text. -/
structure Cell where
  txtb : Option String
  txt : Option String
  text : String

/-- The selector results `scrape_listing` reads from one detail page. -/
structure Doc where
  /-- `soup.select_one('h1.HL1 span.HL1')` text, when the element exists. -/
  titleH1 : Option String
  /-- `soup.find('title')` text, when the element exists. -/
  titleTag : Option String
  /-- texts of all `b`/`strong` elements, in document order. -/
  boldTexts : List String
  /-- `soup.select_one('h2.HL span.HL')` text, when the element exists. -/
  typeH2 : Option String
  /-- texts of all `p` elements, in document order. -/
  paragraphs : List String
  /-- `src` of `img.imgprev`, when the element exists. -/
  imgprevSrc : Option String
  /-- `href` of each `a.addlImage`, in document order. -/
  addlHrefs : List String
  /-- `src` of every `img` that has a `src` attribute, in document order. -/
  imgSrcs : List String
  /-- the `td`/`th` cells of each `tr`, in document order. -/
  rows : List (List Cell)
  /-- texts of all `a.menubar` elements, in document order. -/
  menubarTexts : List String

/-! ## Field extraction (`scrape_listing`, scraper.py lines 75-215) -/

/-- `re.sub(r'^\d+\s+(Offered|Wanted)\s+at.*', '', t, flags=re.IGNORECASE)`
(scraper.py line 104). All the adjacent character classes are disjoint,
so the greedy quantifiers are deterministic; on a match the greedy `.*`
reaches the end of the (newline-free) title, leaving the empty string. -/
def subQtyOffered (s : List Char) : List Char :=
  match s with
  | [] => []
  | c :: cs =>
      if c.isDigit then
        let r1 := cs.dropWhile Char.isDigit
        match dropWs1 r1 with
        | some r2 =>
            match afterOfferedWanted r2 with
            | some r3 => if wsThenAt r3 then [] else c :: cs
            | none => c :: cs
        | none => c :: cs
      else c :: cs

/-- Title option 1 (lines 100-105): the `h1.HL1 span.HL1` text with a
leading quantity-and-price fragment stripped. -/
def titleOpt1 (doc : Doc) : String :=
  match doc.titleH1 with
  | some t => pyStrip ⟨subQtyOffered t.toList⟩
  | none => ""

/-- Title option 2 (lines 108-114): the `title` tag text with the fixed
site-name suffix removed (Python `str.replace`, all occurrences). -/
def titleOpt2 (doc : Doc) : String :=
  match doc.titleTag with
  | some t => pyStrip (t.replace "Infineon Technologies AG - Equipment Trade" "")
  | none => ""

/-- Title option 3 (lines 117-122): the first bold/strong text longer
than 10 characters containing neither "offered" nor "wanted". -/
def findBold : List String → String
  | [] => ""
  | b :: bs =>
      if b ≠ "" ∧ b.length > 10 ∧ ¬ strContainsCI "offered" b = true ∧
          ¬ strContainsCI "wanted" b = true then b
      else findBold bs

/-- The title before the final whitespace cleanup: first non-empty
option wins (each option only assigns when the previous left `''`). -/
def titleRaw (doc : Doc) : String :=
  if titleOpt1 doc ≠ "" then titleOpt1 doc
  else if titleOpt2 doc ≠ "" then titleOpt2 doc
  else findBold doc.boldTexts

/-- Extracted `title`, including the line 212 cleanup
`re.sub(r'\s+', ' ', title).strip()`. -/
def extractTitle (doc : Doc) : String := pyStrip (normSpace (titleRaw doc))

/-- `listing_type` (lines 125-131): from the lowered `h2.HL span.HL` text. -/
def extractListingType (doc : Doc) : String :=
  match doc.typeH2 with
  | some t =>
      if containsSubList "offered".toList (pyLower t).toList then "For Sale"
      else if containsSubList "wanted".toList (pyLower t).toList then "Wanted"
      else ""
  | none => ""

/-- `description` before cleanup (lines 135-140): the first paragraph
text longer than 20 characters not containing "copyright". -/
def findDescr : List String → String
  | [] => ""
  | p :: ps =>
      if p ≠ "" ∧ p.length > 20 ∧ ¬ strContainsCI "copyright" p = true then p
      else findDescr ps

/-- Extracted `description`, including the line 213 cleanup. -/
def extractDescription (doc : Doc) : String := pyStrip (normSpace (findDescr doc.paragraphs))

/-- Picture state: the `pictures` list built so far and the `seen_urls`
set (membership is all the source uses, so a list suffices). -/
abbrev PicState := List String × List String

/-- Method 1 (lines 146-153): the `img.imgprev` source. Note the source
adds the query-stripped, un-joined string to `seen_urls`. -/
def picsMethod1 (doc : Doc) : PicState :=
  match doc.imgprevSrc with
  | some src =>
      if src ≠ "" then
        let s := stripQuery src
        ([urljoinBase s], [s])
      else ([], [])
  | none => ([], [])

/-- Method 2 step (lines 156-163): one `a.addlImage` href. The source
tests the raw href against `seen_urls` and only then strips its query. -/
def picsAddl (st : PicState) (href : String) : PicState :=
  if href ≠ "" ∧ href ∉ st.2 then
    let h := stripQuery href
    (st.1 ++ [urljoinBase h], st.2 ++ [h])
  else st

/-- Method 3 step (lines 166-174): one fallback `img` source (already
filtered to those containing `clientresources`). The raw src is tested
against `seen_urls`; the stripped src must carry an image extension. -/
def picsClient (st : PicState) (src : String) : PicState :=
  if src ≠ "" ∧ src ∉ st.2 then
    let s := stripQuery src
    if hasImageExt s then (st.1 ++ [urljoinBase s], st.2 ++ [s]) else st
  else st

/-- The full `pictures` list (lines 143-174). -/
def extractPictures (doc : Doc) : List String :=
  let st1 := picsMethod1 doc
  let st2 := doc.addlHrefs.foldl picsAddl st1
  let st3 := ((doc.imgSrcs.filter (fun s => strContainsCI "clientresources" s)).foldl
    picsClient st2)
  st3.1

/-- One table row of the single-pass extraction (lines 180-192): the
label is the text of the first cell's `txtb` descendant (or the cell),
stripped and lowered; the value is the text of the second cell's `txt`
descendant (or the cell), stripped; the pair counts only when both are
non-empty. -/
def rowPair (r : List Cell) : Option (String × String) :=
  match r with
  | c0 :: c1 :: _ =>
      let l := pyLower (pyStrip (c0.txtb.getD c0.text))
      let v := pyStrip (c1.txt.getD c1.text)
      if l ≠ "" ∧ v ≠ "" then some (l, v) else none
  | _ => none

/-- One `all_data[label_text] = value_text` assignment (line 192):
bind the row's label to its value, shadowing any earlier binding. -/
def tableUpd (m : String → Option String) (r : List Cell) : String → Option String :=
  match rowPair r with
  | some lv => fun k => if lv.1 == k then some lv.2 else m k
  | none => m

/-- The `all_data` dictionary (lines 178-192) as a map: rows are folded
left to right, a later binding of the same label overwriting an earlier
one, exactly as repeated `dict` assignment does. -/
def tableData (rows : List (List Cell)) : String → Option String :=
  rows.foldl tableUpd (fun _ => none)

/-- `category` (lines 203-209): non-empty `a.menubar` texts, minus the
two navigation labels, joined with `" > "`. -/
def extractCategory (doc : Doc) : String :=
  let cs := (doc.menubarTexts.filter (fun c => c != "")).filter
    (fun c => !(c == "View") && !(c == "Search-by-Specs"))
  if cs = [] then "" else String.intercalate " > " cs

/-- The record `scrape_listing` returns, with the source's field set
(note the source spells the year field `year_of_manufacturer`). -/
structure Listing where
  title : String
  condition : String
  location : String
  category : String
  listing_type : String
  price : String
  pictures : List String
  manufacturer : String
  model : String
  year_of_manufacturer : String
  description : String
  url : String
  item_id : String
deriving DecidableEq

/-- `SurplusScraper.scrape_listing` (scraper.py lines 75-215) on an
already-fetched document; a fetch failure returns no record in the
source and is handled by the caller, so it is not embedded here. -/
def scrape_listing (doc : Doc) (item_no : String) : Listing :=
  { title := extractTitle doc
    condition := (tableData doc.rows "condition").getD ""
    location := "Regensburg, Germany"
    category := extractCategory doc
    listing_type := extractListingType doc
    price := (tableData doc.rows "unit price").getD ""
    pictures := extractPictures doc
    manufacturer := (tableData doc.rows "manufacturer").getD ""
    model := (tableData doc.rows "model").getD ""
    year_of_manufacturer := (tableData doc.rows "year of manufacture").getD ""
    description := extractDescription doc
    url := BASE_URL ++ "iinfo.cfm?ItemNo=" ++ item_no
    item_id := item_no }


/-! ## Pagination discovery (`discover_listings`, scraper.py lines 217-276) -/

/-- Maximal digit run at the start of `s` (regex `\d+`, greedy). -/
def takeDigits (s : List Char) : List Char := s.takeWhile Char.isDigit

/-- Does `re.search(r'ItemNo=(\d+)', href)` match at this position:
the literal `ItemNo=` followed by at least one digit; on success the
first capture group, the maximal digit run. -/
def itemNoHere (s : List Char) : Option (List Char) :=
  if listStartsWith "ItemNo=".toList s then
    let ds := takeDigits (s.drop 7)
    if ds = [] then none else some ds
  else none

/-- Leftmost match of `re.search(r'ItemNo=(\d+)', href)`. -/
def searchItemNo : List Char → Option (List Char)
  | [] => none
  | c :: cs =>
      match itemNoHere (c :: cs) with
      | some ds => some ds
      | none => searchItemNo cs

/-- `match.group(1)` of `re.search(r'ItemNo=(\d+)', href)` (lines 255-257). -/
def extractItemNo (href : String) : Option String :=
  (searchItemNo href.toList).map (fun ds => ⟨ds⟩)

/-- The site, as the scraper observes it: each index-page request (by
`startRec` offset) yields the `href` attributes of the
`td.itemid a.collink0` anchors, or `none` on a fetch failure, and each
detail request yields a parsed document or `none`. -/
structure Site where
  page : Nat → Option (List String)
  detail : String → Option Doc

/-- `items_per_page` (scraper.py line 228). -/
def itemsPerPage : Nat := 100

/-- The inner `for link in item_links` loop (lines 252-259): append each
extracted identifier not already present. -/
def collectPage (acc : List String) (links : List String) : List String :=
  links.foldl
    (fun a href =>
      match extractItemNo href with
      | some n => if n ∈ a then a else a ++ [n]
      | none => a)
    acc

/-- Python `max_items and len(item_numbers) >= max_items` (line 268):
`None` and `0` are both falsy. -/
def maxReached (maxItems : Option Nat) (acc : List String) : Bool :=
  match maxItems with
  | some m => decide (m ≠ 0 ∧ m ≤ acc.length)
  | none => false

/-- Outcome of one iteration of the `while True` loop. -/
inductive Step where
  | stop (result : List String)
  | next (acc : List String)
deriving DecidableEq

/-- One iteration of the discovery loop body (lines 239-272), checked in
the source order: fetch failure, empty link list, fewer links than the
batch size, then the `max_items` truncation, otherwise continue. -/
def pageStep (maxItems : Option Nat) (page : Option (List String)) (acc : List String) :
    Step :=
  match page with
  | none => .stop acc
  | some links =>
    if links = [] then .stop acc
    else
      let acc' := collectPage acc links
      if links.length < itemsPerPage then .stop acc'
      else if maxReached maxItems acc' then .stop (acc'.take (maxItems.getD 0))
      else .next acc'

/-- The `while True` loop, with fuel bounding the unbounded iteration
(the source relies on the site being finite); also records the sequence
of offsets requested. -/
def discoverGo (site : Site) (maxItems : Option Nat) :
    Nat → Nat → List String → List Nat → List String × List Nat
  | 0, _, acc, reqs => (acc, reqs)
  | fuel + 1, startRec, acc, reqs =>
      let reqs' := reqs ++ [startRec]
      match pageStep maxItems (site.page startRec) acc with
      | .stop res => (res, reqs')
      | .next acc' => discoverGo site maxItems fuel (startRec + itemsPerPage) acc' reqs'

/-- `SurplusScraper.discover_listings` (lines 217-276): start at record
offset 1 with an empty accumulator. -/
def discover_listings (site : Site) (maxItems : Option Nat) (fuel : Nat) : List String :=
  (discoverGo site maxItems fuel 1 [] []).1

/-- The offsets of the index pages actually requested during discovery. -/
def discover_requests (site : Site) (maxItems : Option Nat) (fuel : Nat) : List Nat :=
  (discoverGo site maxItems fuel 1 [] []).2

/-! ## The full pass (`scrape_all_listings`, scraper.py lines 278-302) -/

/-- `SurplusScraper.scrape_all_listings`: discover, then scrape each
identifier in order, reporting `(i+1, total, "Item " ++ item_no)` to the
progress callback before each item and skipping identifiers whose
detail fetch fails. Returns the records and the callback invocations. -/
def scrape_all_listings (site : Site) (maxItems : Option Nat) (fuel : Nat) :
    List Listing × List (Nat × Nat × String) :=
  let items := discover_listings site maxItems fuel
  let total := items.length
  let events := items.enum.map (fun p => (p.1 + 1, total, "Item " ++ p.2))
  let data := items.filterMap (fun it => (site.detail it).map (fun d => scrape_listing d it))
  (data, events)

/-! ## Job orchestration (`main.py`) -/

/-- One value of the `scraping_status` registry: the dictionary shape
the source stores, with `none` for keys absent in a given state. -/
structure JobStatus where
  status : String
  progress : Nat
  total : Nat
  current_url : Option String
  count : Option Nat
  error : Option String
  traceback : Option String
deriving DecidableEq

/-- `url[:100] + "..." if len(url) > 100 else url` (main.py line 55). -/
def truncUrl (u : String) : String :=
  if u.length > 100 then ⟨u.toList.take 100⟩ ++ "..." else u

/-- `progress_callback` (main.py lines 50-56): each invocation replaces
the whole status dictionary. -/
def applyEvent (_s : JobStatus) (e : Nat × Nat × String) : JobStatus :=
  { status := "running", progress := e.1, total := e.2.1,
    current_url := some (truncUrl e.2.2), count := none, error := none, traceback := none }

/-- The status written at the top of `run_scraping_job` (main.py line 48). -/
def initialRunning : JobStatus :=
  { status := "running", progress := 0, total := 0,
    current_url := some "Initializing...", count := none, error := none, traceback := none }

/-- A listing as stored for a completed job: `pictures` flattened to one
string (main.py lines 63-65). -/
structure FlatListing where
  title : String
  condition : String
  location : String
  category : String
  listing_type : String
  price : String
  pictures : String
  manufacturer : String
  model : String
  year_of_manufacturer : String
  description : String
  url : String
  item_id : String
deriving DecidableEq

/-- `item['pictures'] = '; '.join(item['pictures']) if item['pictures'] else ''`. -/
def flatten (l : Listing) : FlatListing :=
  { title := l.title, condition := l.condition, location := l.location,
    category := l.category, listing_type := l.listing_type, price := l.price,
    pictures := if l.pictures = [] then "" else String.intercalate "; " l.pictures,
    manufacturer := l.manufacturer, model := l.model,
    year_of_manufacturer := l.year_of_manufacturer, description := l.description,
    url := l.url, item_id := l.item_id }

/-- Outcome of the `try` block of `run_scraping_job`: either the pass
returns its records, or an unhandled exception carries a message and a
diagnostic trace; `events` are the progress-callback invocations that
happened before the outcome. -/
inductive PassResult where
  | ok (events : List (Nat × Nat × String)) (data : List Listing)
  | err (events : List (Nat × Nat × String)) (msg : String) (tb : String)

/-- The embedded pass outcome: `scrape_all_listings` itself absorbs all
fetch failures, so it always returns normally. -/
def passOf (site : Site) (maxItems : Option Nat) (fuel : Nat) : PassResult :=
  let r := scrape_all_listings site maxItems fuel
  .ok r.2 r.1

/-- The `scraping_status` registry. -/
abbrev StatusMap := String → Option JobStatus

/-- The `scraped_data_store` registry. -/
abbrev DataMap := String → Option (List FlatListing)

/-- Point update of a registry. -/
def updateMap {α : Type} (m : String → Option α) (k : String) (v : α) :
    String → Option α :=
  fun q => if q = k then some v else m q

/-- Conditional `del m[k]` of a registry (no-op when absent). -/
def eraseMap {α : Type} (m : String → Option α) (k : String) : String → Option α :=
  fun q => if q = k then none else m q

/-- `run_scraping_job` (main.py lines 46-83), as the net effect on the
two registries. The status is first set to running, then replaced by
each callback, then by the terminal value, so only the terminal value
survives; on success the flattened records are stored and the status
becomes `completed` with the progress counters of the last callback and
`count = len(all_data)`; an unhandled failure is modelled as occurring
inside `scrape_all_listings` (the only fallible call of the `try`
block), so the store is untouched and the status becomes `error` with
the captured message, trace, and last-reported counters. -/
def run_scraping_job (sm : StatusMap) (dm : DataMap) (job_id : String)
    (pass : PassResult) : StatusMap × DataMap :=
  match pass with
  | .ok events data =>
      let stAfter := events.foldl applyEvent initialRunning
      let flat := data.map flatten
      let final : JobStatus :=
        { status := "completed", progress := stAfter.progress, total := stAfter.total,
          current_url := some "Completed", count := some flat.length,
          error := none, traceback := none }
      (updateMap sm job_id final, updateMap dm job_id flat)
  | .err events msg tb =>
      let stAfter := events.foldl applyEvent initialRunning
      let final : JobStatus :=
        { status := "error", progress := stAfter.progress, total := stAfter.total,
          current_url := none, count := none, error := some msg, traceback := some tb }
      (updateMap sm job_id final, dm)

/-- Result of an API endpoint: a value or a 404 with its detail string. -/
inductive ApiResult (α : Type) where
  | ok (val : α)
  | notFound (detail : String)
deriving DecidableEq

/-- `get_scraping_status` (main.py lines 86-91). -/
def get_scraping_status (sm : StatusMap) (job_id : String) : ApiResult JobStatus :=
  match sm job_id with
  | some s => .ok s
  | none => .notFound "Job not found"

/-- `get_scraped_data` (main.py lines 94-99). -/
def get_scraped_data (dm : DataMap) (job_id : String) : ApiResult (List FlatListing) :=
  match dm job_id with
  | some d => .ok d
  | none => .notFound "Data not found"

/-- `delete_data` (main.py lines 153-160): conditionally delete from
both registries, always answering the same message. -/
def delete_data (dm : DataMap) (sm : StatusMap) (job_id : String) :
    DataMap × StatusMap × String :=
  (eraseMap dm job_id, eraseMap sm job_id, "Data deleted")

/-! ## Specification-side definitions

These follow the wording of the specification (deduplicated first-seen
order, last qualifying table row); the theorems below compare them with
the embedded source functions. -/

/-- The identifiers one page's links yield, in document order. -/
def pageIds (links : List String) : List String := links.filterMap extractItemNo

/-- Append identifiers to an accumulator, keeping only first occurrences. -/
def dedupAppend (acc ids : List String) : List String :=
  ids.foldl (fun a n => if n ∈ a then a else a ++ [n]) acc

/-- First-seen-order deduplication of an identifier stream. -/
def dedupFirst (ids : List String) : List String := dedupAppend [] ids

/-- Modelled from the spec: the raw identifier stream discovery walks
when no `maxItems` bound is given — the concatenation, page by page, of
each visited page's identifiers, visiting exactly while pages keep
returning a full batch. -/
def rawIdsGo (site : Site) : Nat → Nat → List String
  | 0, _ => []
  | fuel + 1, startRec =>
      match site.page startRec with
      | none => []
      | some links =>
          if links = [] then []
          else if links.length < itemsPerPage then pageIds links
          else pageIds links ++ rawIdsGo site fuel (startRec + itemsPerPage)

/-- Modelled from the spec: the value of the last table row with at
least two cells whose stripped-and-lowered label equals `key` and whose
stripped value is non-empty, or the empty string when no such row exists. -/
def lastLabelValue (rows : List (List Cell)) (key : String) : String :=
  ((((rows.filterMap rowPair).reverse.find? (fun p => p.1 == key)).map Prod.snd).getD "")

/-! ## Concrete fixtures -/

/-- A site whose every index page answers with zero listing links. -/
def emptySite : Site := { page := fun _ => some [], detail := fun _ => none }

/-- A site whose first index page has 100 listing links that all carry
the same identifier, and whose second page has a single fresh link. -/
def dupSite : Site :=
  { page := fun sr =>
      if sr = 1 then some (List.replicate 100 "iinfo.cfm?ItemNo=1")
      else if sr = 101 then some ["iinfo.cfm?ItemNo=2"]
      else some []
    detail := fun _ => none }

/-- A site with a single index page carrying two listing links. -/
def siteC1 : Site :=
  { page := fun sr =>
      if sr = 1 then some ["iinfo.cfm?ItemNo=1", "iinfo.cfm?ItemNo=2"]
      else some []
    detail := fun _ => none }

/-- A detail page whose preview image and sole additional-image link
reference the same file, the latter with a query string. -/
def docC2 : Doc :=
  { titleH1 := none, titleTag := none, boldTexts := [], typeH2 := none,
    paragraphs := [], imgprevSrc := some "x.jpg", addlHrefs := ["x.jpg?big=1"],
    imgSrcs := [], rows := [], menubarTexts := [] }

/-- A detail page on which every extraction heuristic finds nothing. -/
def emptyDoc : Doc :=
  { titleH1 := none, titleTag := none, boldTexts := [], typeH2 := none,
    paragraphs := [], imgprevSrc := none, addlHrefs := [],
    imgSrcs := [], rows := [], menubarTexts := [] }

/-! ## Helper lemmas -/

theorem collectPage_eq : ∀ (links acc : List String),
    collectPage acc links = dedupAppend acc (pageIds links)
  | [], _ => rfl
  | h :: t, acc => by
      simp only [collectPage, pageIds, dedupAppend, List.foldl_cons, List.filterMap_cons]
      cases extractItemNo h with
      | none => exact collectPage_eq t acc
      | some n =>
          simp only [List.foldl_cons]
          exact collectPage_eq t _

theorem dedupAppend_nodup : ∀ (ids acc : List String),
    acc.Nodup → (dedupAppend acc ids).Nodup
  | [], _, h => h
  | n :: t, acc, h => by
      simp only [dedupAppend, List.foldl_cons]
      by_cases hm : n ∈ acc
      · simp only [if_pos hm]
        exact dedupAppend_nodup t acc h
      · simp only [if_neg hm]
        exact dedupAppend_nodup t _ (by simp [List.nodup_append, h, hm])

theorem dedupAppend_append (acc x y : List String) :
    dedupAppend acc (x ++ y) = dedupAppend (dedupAppend acc x) y := by
  simp [dedupAppend, List.foldl_append]

theorem nodup_discoverGo (site : Site) (mi : Option Nat) :
    ∀ (fuel startRec : Nat) (acc : List String) (reqs : List Nat),
      acc.Nodup → (discoverGo site mi fuel startRec acc reqs).1.Nodup
  | 0, _, _, _, h => h
  | fuel + 1, sr, acc, reqs, h => by
      have hcol : ∀ links, (collectPage acc links).Nodup := fun links => by
        rw [collectPage_eq]
        exact dedupAppend_nodup _ _ h
      simp only [discoverGo]
      cases hp : site.page sr with
      | none => simpa [pageStep] using h
      | some links =>
          by_cases he : links = []
          · simpa [pageStep, he] using h
          · simp only [pageStep, if_neg he]
            by_cases hlen : links.length < itemsPerPage
            · simpa [hlen] using hcol links
            · simp only [if_neg hlen]
              by_cases hmax : maxReached mi (collectPage acc links) = true
              · simp only [hmax, if_pos]
                exact (hcol links).sublist (List.take_sublist _ _)
              · simp only [Bool.not_eq_true] at hmax
                simp only [hmax, Bool.false_eq_true, if_false]
                exact nodup_discoverGo site mi fuel _ _ _ (hcol links)

theorem discoverGo_none_eq (site : Site) :
    ∀ (fuel sr : Nat) (acc : List String) (reqs : List Nat),
      (discoverGo site none fuel sr acc reqs).1 = dedupAppend acc (rawIdsGo site fuel sr)
  | 0, _, _, _ => rfl
  | fuel + 1, sr, acc, reqs => by
      simp only [discoverGo, rawIdsGo]
      cases hp : site.page sr with
      | none => simp [pageStep, dedupAppend]
      | some links =>
          by_cases he : links = []
          · simp [pageStep, he, dedupAppend]
          · simp only [pageStep, if_neg he]
            by_cases hlen : links.length < itemsPerPage
            · simp only [if_pos hlen]
              exact collectPage_eq links acc
            · simp only [if_neg hlen, maxReached, Bool.false_eq_true, if_false]
              rw [discoverGo_none_eq site fuel _ _ _, collectPage_eq, dedupAppend_append]

/-! ## Claim theorems -/

set_option maxRecDepth 8192 in
/-- C9: the identifier sequence discovery returns never contains a
duplicate; with no `maxItems` bound it is exactly the first-seen-order
deduplication of the raw identifier stream of the visited pages; an
all-empty site yields the empty sequence as a normal result; and a page
whose 100 links all repeat one already-seen identifier still counts as a
full batch, so discovery continues to the next page (`dupSite`). -/
theorem discovery_dedup_c9 :
    (∀ (site : Site) (mi : Option Nat) (fuel : Nat), (discover_listings site mi fuel).Nodup)
    ∧ (∀ (site : Site) (fuel : Nat),
        discover_listings site none fuel = dedupFirst (rawIdsGo site fuel 1))
    ∧ (∀ (mi : Option Nat) (fuel : Nat), discover_listings emptySite mi fuel = [])
    ∧ discover_listings dupSite none 2 = ["1", "2"] := by
  refine ⟨?_, ?_, ?_, ?_⟩
  · intro site mi fuel
    exact nodup_discoverGo site mi fuel 1 [] [] List.nodup_nil
  · intro site fuel
    exact discoverGo_none_eq site fuel 1 [] []
  · intro mi fuel
    cases fuel with
    | zero => rfl
    | succ n => rfl
  · decide

set_option maxRecDepth 8192 in
/-- C5 counterexample: on `dupSite` with `maxItems = 1`, the first index
page yields exactly 100 listing links, yet discovery requests no further
page — the request trace is `[1]` and the result is truncated to `["1"]`
— because the `maxItems` truncation fires after a full batch, refuting
"for every index page from which exactly 100 listing links are
extracted, discovery advances the offset and requests the next page". -/
theorem full_page_stops_c5_cex :
    discoverGo dupSite (some 1) 5 1 [] [] = (["1"], [1]) := by decide

/-- C5 (amended): a page of exactly 100 links advances discovery to the
next offset unless a given non-zero `maxItems` has been reached by the
deduplicated total collected through that page; a page of fewer than 100
links always stops discovery after collecting that page. -/
theorem page_continuation_c5 :
    ∀ (mi : Option Nat) (links acc : List String),
      (links.length = itemsPerPage → maxReached mi (collectPage acc links) = false →
        pageStep mi (some links) acc = .next (collectPage acc links))
      ∧ (links.length < itemsPerPage →
        pageStep mi (some links) acc = .stop (collectPage acc links)) := by
  intro mi links acc
  constructor
  · intro hlen hmax
    have hne : links ≠ [] := by
      intro h
      rw [h] at hlen
      simp [itemsPerPage] at hlen
    simp [pageStep, hne, hlen, hmax]
  · intro hlt
    by_cases he : links = []
    · subst he
      simp [pageStep, collectPage]
    · simp [pageStep, he, hlt]

/-- Witness for `page_continuation_c5` at concrete pages: a 100-link
page with no `maxItems` continues, a 0-link page stops. -/
theorem page_continuation_c5_witness :
    pageStep none (some (List.replicate 100 "x")) [] =
      .next (collectPage [] (List.replicate 100 "x"))
    ∧ pageStep none (some []) [] = .stop (collectPage [] []) :=
  ⟨(page_continuation_c5 none (List.replicate 100 "x") []).1 (by decide) rfl,
   (page_continuation_c5 none [] []).2 (by decide)⟩

/-- C1: on `siteC1` (one index page of two listing links) with
`maxItems = 1`, discovery returns both identifiers — more than
`maxItems` — because the code checks "fewer links than the batch size"
and stops before it ever applies the `maxItems` truncation, contrary to
the claim (and to the docstring "Maximum number of items to discover"). -/
theorem max_items_exceeded_c1 :
    discover_listings siteC1 (some 1) 5 = ["1", "2"]
    ∧ 1 < (discover_listings siteC1 (some 1) 5).length := by decide

/-- C2: on `docC2` the preview image `x.jpg` and the additional-image
link `x.jpg?big=1` normalize to the same URL, yet both are appended: the
source tests the raw, query-included href against `seen_urls` (which
holds query-stripped strings), so the pictures list carries a duplicate
normalized URL, contrary to the claim. -/
theorem duplicate_pictures_c2 :
    (scrape_listing docC2 "1").pictures =
      ["https://surplus.infineon.com/x.jpg", "https://surplus.infineon.com/x.jpg"]
    ∧ ¬ (scrape_listing docC2 "1").pictures.Nodup := by decide

/-- C4: the value-cleanup regex chain, in its fixed order, maps
"Offered at $500 Serial Number 1234567" to the empty string and leaves
"Siemens" unchanged. -/
theorem clean_value_examples_c4 :
    cleanValue "Offered at $500 Serial Number 1234567" = ""
    ∧ cleanValue "Siemens" = "Siemens" := by decide

/-- C3 counterexample: on a detail page on which every heuristic finds
nothing, the `location` field of the returned record is the hard-coded
default "Regensburg, Germany", not the empty string the claim requires
for every free-text field whose heuristics find nothing. -/
theorem location_not_empty_c3_cex :
    (scrape_listing emptyDoc "1").location = "Regensburg, Germany"
    ∧ (scrape_listing emptyDoc "1").location ≠ "" := by decide

theorem tableUpd_foldl (k : String) : ∀ (rows : List (List Cell)) (m : String → Option String),
    (rows.foldl tableUpd m) k =
      (((rows.filterMap rowPair).reverse.find? (fun p => p.1 == k)).map Prod.snd).or (m k)
  | [], m => by simp
  | r :: rs, m => by
      simp only [List.foldl_cons, List.filterMap_cons]
      rw [tableUpd_foldl k rs (tableUpd m r)]
      cases hr : rowPair r with
      | none => simp [tableUpd, hr]
      | some lv =>
          simp only [hr, List.reverse_cons, List.find?_append]
          cases hf : (rs.filterMap rowPair).reverse.find? (fun p => p.1 == k) with
          | some q => simp [Option.or]
          | none =>
              by_cases hlk : lv.1 == k
              · simp [tableUpd, hr, hlk, Option.or, List.find?]
              · simp [tableUpd, hr, hlk, Option.or, List.find?]

/-- C10: each of the five table-driven fields equals the value of the
last qualifying table row (at least two cells, stripped-and-lowered
first-cell text equal to the exact key, both label and value non-empty)
— or the empty string when no such row exists. -/
theorem table_last_row_c10 :
    ∀ (doc : Doc) (item_no : String),
      (scrape_listing doc item_no).manufacturer = lastLabelValue doc.rows "manufacturer"
      ∧ (scrape_listing doc item_no).model = lastLabelValue doc.rows "model"
      ∧ (scrape_listing doc item_no).year_of_manufacturer =
          lastLabelValue doc.rows "year of manufacture"
      ∧ (scrape_listing doc item_no).condition = lastLabelValue doc.rows "condition"
      ∧ (scrape_listing doc item_no).price = lastLabelValue doc.rows "unit price" := by
  intro doc item_no
  have h : ∀ q, (tableData doc.rows q).getD "" = lastLabelValue doc.rows q := by
    intro q
    rw [tableData, tableUpd_foldl, lastLabelValue]
    cases ((doc.rows.filterMap rowPair).reverse.find? (fun p => p.1 == q)).map Prod.snd with
    | none => rfl
    | some v => rfl
  exact ⟨h _, h _, h _, h _, h _⟩

/-- C3 (amended): every free-text field except `location` defaults to
the empty string — `title` is empty for every document lacking all three
title sources, `listing_type`, `description`, the five table fields and
`category` are empty when their sources are absent — while `location` is
always the hard-coded constant "Regensburg, Germany" and is never
extracted from the page. -/
theorem empty_defaults_c3 :
    ∀ (doc : Doc) (item_no : String),
      (doc.titleH1 = none → doc.titleTag = none → doc.boldTexts = [] →
        (scrape_listing doc item_no).title = "")
      ∧ (doc.typeH2 = none → (scrape_listing doc item_no).listing_type = "")
      ∧ (doc.paragraphs = [] → (scrape_listing doc item_no).description = "")
      ∧ (doc.rows = [] →
          (scrape_listing doc item_no).condition = ""
          ∧ (scrape_listing doc item_no).price = ""
          ∧ (scrape_listing doc item_no).manufacturer = ""
          ∧ (scrape_listing doc item_no).model = ""
          ∧ (scrape_listing doc item_no).year_of_manufacturer = "")
      ∧ (doc.menubarTexts = [] → (scrape_listing doc item_no).category = "")
      ∧ (scrape_listing doc item_no).location = "Regensburg, Germany" := by
  intro doc item_no
  refine ⟨?_, ?_, ?_, ?_, ?_, rfl⟩
  · intro h1 h2 h3
    simp only [scrape_listing, extractTitle, titleRaw, titleOpt1, titleOpt2, h1, h2, h3,
      findBold]
    decide
  · intro h
    simp [scrape_listing, extractListingType, h]
  · intro h
    simp only [scrape_listing, extractDescription, h, findDescr]
    decide
  · intro h
    simp [scrape_listing, tableData, h]
  · intro h
    simp [scrape_listing, extractCategory, h]

/-- Witness for `empty_defaults_c3` on the concrete all-empty document. -/
theorem empty_defaults_c3_witness :
    (scrape_listing emptyDoc "1").title = ""
    ∧ (scrape_listing emptyDoc "1").listing_type = ""
    ∧ (scrape_listing emptyDoc "1").description = ""
    ∧ (scrape_listing emptyDoc "1").condition = ""
    ∧ (scrape_listing emptyDoc "1").location = "Regensburg, Germany" :=
  ⟨(empty_defaults_c3 emptyDoc "1").1 rfl rfl rfl,
   (empty_defaults_c3 emptyDoc "1").2.1 rfl,
   (empty_defaults_c3 emptyDoc "1").2.2.1 rfl,
   ((empty_defaults_c3 emptyDoc "1").2.2.2.1 rfl).1,
   (empty_defaults_c3 emptyDoc "1").2.2.2.2.2⟩

theorem foldl_applyEvent_last :
    ∀ (events : List (Nat × Nat × String)) (e : Nat × Nat × String) (s : JobStatus),
      events.getLast? = some e → events.foldl applyEvent s = applyEvent s e
  | [], _, _, h => by simp at h
  | [x], e, s, h => by
      simp only [List.getLast?_singleton, Option.some.injEq] at h
      subst h
      rfl
  | x :: y :: t, e, s, h => by
      rw [List.getLast?_cons_cons] at h
      simp only [List.foldl_cons]
      have ih := foldl_applyEvent_last (y :: t) e (applyEvent s x) h
      simp only [List.foldl_cons] at ih
      rw [ih]
      rfl

/-- C6: a pass that completes with zero discovered identifiers leaves
the job in status `completed` (progress 0 of 0, count 0) with an empty
stored result sequence — not `error`. -/
theorem zero_items_completed_c6 :
    ∀ (site : Site) (mi : Option Nat) (fuel : Nat) (sm : StatusMap) (dm : DataMap)
      (job_id : String),
      discover_listings site mi fuel = [] →
      (run_scraping_job sm dm job_id (passOf site mi fuel)).1 job_id =
        some { status := "completed", progress := 0, total := 0,
               current_url := some "Completed", count := some 0,
               error := none, traceback := none }
      ∧ (run_scraping_job sm dm job_id (passOf site mi fuel)).2 job_id = some [] := by
  intro site mi fuel sm dm job_id h
  have hp : passOf site mi fuel = .ok [] [] := by
    simp [passOf, scrape_all_listings, h]
  rw [hp]
  constructor
  · simp [run_scraping_job, updateMap, initialRunning]
  · simp [run_scraping_job, updateMap]

/-- Witness for `zero_items_completed_c6` on the all-empty site. -/
theorem zero_items_completed_c6_witness :
    (run_scraping_job (fun _ => none) (fun _ => none) "job" (passOf emptySite none 3)).1
        "job" =
      some { status := "completed", progress := 0, total := 0,
             current_url := some "Completed", count := some 0,
             error := none, traceback := none }
    ∧ (run_scraping_job (fun _ => none) (fun _ => none) "job" (passOf emptySite none 3)).2
        "job" = some [] :=
  zero_items_completed_c6 emptySite none 3 (fun _ => none) (fun _ => none) "job" rfl

/-- C7: a pass that raises an unhandled failure leaves the job in status
`error`, carrying the captured message and diagnostic trace, with the
progress counters of the last reported callback; the result store is
untouched, so `getResult` for a job with no stored data answers the 404
"Data not found". -/
theorem error_state_c7 :
    ∀ (sm : StatusMap) (dm : DataMap) (job_id msg tb lbl : String)
      (events : List (Nat × Nat × String)) (c t : Nat),
      events.getLast? = some (c, t, lbl) →
      dm job_id = none →
      (run_scraping_job sm dm job_id (.err events msg tb)).1 job_id =
        some { status := "error", progress := c, total := t, current_url := none,
               count := none, error := some msg, traceback := some tb }
      ∧ (run_scraping_job sm dm job_id (.err events msg tb)).2 = dm
      ∧ get_scraped_data (run_scraping_job sm dm job_id (.err events msg tb)).2 job_id =
          .notFound "Data not found" := by
  intro sm dm job_id msg tb lbl events c t hl hd
  have hst := foldl_applyEvent_last events (c, t, lbl) initialRunning hl
  refine ⟨?_, rfl, ?_⟩
  · simp [run_scraping_job, hst, applyEvent, updateMap]
  · simp [run_scraping_job, get_scraped_data, hd]

/-- Witness for `error_state_c7`: one reported progress step, then a
failure. -/
theorem error_state_c7_witness :
    (run_scraping_job (fun _ => none) (fun _ => none) "job"
        (.err [(3, 10, "Item 7")] "boom" "trace")).1 "job" =
      some { status := "error", progress := 3, total := 10, current_url := none,
             count := none, error := some "boom", traceback := some "trace" }
    ∧ (run_scraping_job (fun _ => none) (fun _ => none) "job"
        (.err [(3, 10, "Item 7")] "boom" "trace")).2 = (fun _ => none)
    ∧ get_scraped_data
        (run_scraping_job (fun _ => none) (fun _ => none) "job"
          (.err [(3, 10, "Item 7")] "boom" "trace")).2 "job" =
        .notFound "Data not found" :=
  error_state_c7 (fun _ => none) (fun _ => none) "job" "boom" "trace" "Item 7"
    [(3, 10, "Item 7")] 3 10 rfl rfl

/-- C8: `delete_data` answers "Data deleted" for every id — including
unknown ones, raising no error — afterwards both the status and the
result lookups for that id answer their 404s, and on an id absent from a
registry that registry is left unchanged. -/
theorem delete_idempotent_c8 :
    ∀ (dm : DataMap) (sm : StatusMap) (job_id : String),
      (delete_data dm sm job_id).2.2 = "Data deleted"
      ∧ get_scraped_data (delete_data dm sm job_id).1 job_id = .notFound "Data not found"
      ∧ get_scraping_status (delete_data dm sm job_id).2.1 job_id =
          .notFound "Job not found"
      ∧ (dm job_id = none → (delete_data dm sm job_id).1 = dm)
      ∧ (sm job_id = none → (delete_data dm sm job_id).2.1 = sm) := by
  intro dm sm job_id
  refine ⟨rfl, ?_, ?_, ?_, ?_⟩
  · simp [delete_data, get_scraped_data, eraseMap]
  · simp [delete_data, get_scraping_status, eraseMap]
  · intro h
    funext q
    by_cases hq : q = job_id
    · subst hq
      simp [delete_data, eraseMap, h]
    · simp [delete_data, eraseMap, hq]
  · intro h
    funext q
    by_cases hq : q = job_id
    · subst hq
      simp [delete_data, eraseMap, h]
    · simp [delete_data, eraseMap, hq]

/-- Witness for `delete_idempotent_c8` on empty registries (the id is
unknown, so the delete is a pure no-op). -/
theorem delete_idempotent_c8_witness :
    (delete_data (fun _ => none) (fun _ => none) "job").2.2 = "Data deleted"
    ∧ get_scraped_data (delete_data (fun _ => none) (fun _ => none) "job").1 "job" =
        .notFound "Data not found"
    ∧ get_scraping_status (delete_data (fun _ => none) (fun _ => none) "job").2.1 "job" =
        .notFound "Job not found"
    ∧ (delete_data (fun _ => none) (fun _ => none) "job").1 = (fun _ => none)
    ∧ (delete_data (fun _ => none) (fun _ => none) "job").2.1 = (fun _ => none) :=
  ⟨(delete_idempotent_c8 (fun _ => none) (fun _ => none) "job").1,
   (delete_idempotent_c8 (fun _ => none) (fun _ => none) "job").2.1,
   (delete_idempotent_c8 (fun _ => none) (fun _ => none) "job").2.2.1,
   (delete_idempotent_c8 (fun _ => none) (fun _ => none) "job").2.2.2.1 rfl,
   (delete_idempotent_c8 (fun _ => none) (fun _ => none) "job").2.2.2.2 rfl⟩
